/-
Verification of the YKey host-side FIDO2/CTAP2 stack (crates ykey-core,
ykey-protocol, ykey-device) against its natural-language specification.

The Rust source is shallowly embedded:
* machine integers (u8/u16/u64) become `Nat`; byte buffers become `List Nat`;
* `Result<T, YKeyError>` becomes `Except YKeyError T`;
* stateful methods on `Fido2Client` become explicit state-passing functions;
  the asynchronous device transport (`Device::send_raw` plus the tokio timeout
  wrapper) is an external I/O boundary and is passed in as an explicit
  `RawOutcome` argument; each operation additionally returns the list of raw
  byte packets it handed to the transport, so that "the device was never
  invoked" is expressible;
* `Vec::sort_by` is a stable sort; a stable sort's output is uniquely
  determined by the comparator and the input, so it is embedded as
  `List.insertionSort` (stable) over the same comparator;
* Rust `String::len` is the UTF-8 byte length, embedded as
  `String.utf8ByteSize`.
-/
import Mathlib

namespace YKey

/-! ## ykey-core/src/types.rs -/

/-- Model of `serde_json::Value` (numbers as `Int`; no claim inspects
JSON payloads). -/
inductive JsonValue where
  | null
  | bool (b : Bool)
  | num (n : Int)
  | str (s : String)
  | arr (xs : List JsonValue)
  | obj (fields : List (String × JsonValue))

/-- `enum DeviceType` from types.rs. -/
inductive DeviceType where
  | YubiKey
  | CanoKey
  | Nitrokey
  | SoloKey
  | Generic
deriving DecidableEq, Repr

/-- `enum TransportType` from types.rs. -/
inductive TransportType where
  | Usb
  | Nfc
  | Bluetooth
  | Hybrid
deriving DecidableEq, Repr

/-- `enum Capability` from types.rs. -/
inductive Capability where
  | Fido2
  | Fido1
  | Oath
  | Piv
  | OpenPgp
  | Otp
deriving DecidableEq, Repr

/-- `struct DeviceInfo` from types.rs (`u16` as `Nat`, `DateTime<Utc>` as a
`Nat` timestamp). -/
structure DeviceInfo where
  id : String
  name : String
  manufacturer : String
  product_name : String
  serial_number : Option String
  vendor_id : Nat
  product_id : Nat
  device_type : DeviceType
  transport : TransportType
  capabilities : List Capability
  firmware_version : Option String
  last_seen : Nat
deriving DecidableEq, Repr

/-- `struct RelyingParty` from types.rs. -/
structure RelyingParty where
  id : String
  name : Option String
  icon : Option String

/-- `struct User` from types.rs. -/
structure User where
  id : List Nat
  name : String
  display_name : String
  icon : Option String

/-- `struct PublicKeyCredentialParameter` from types.rs (`i64` as `Int`). -/
structure PublicKeyCredentialParameter where
  cred_type : String
  alg : Int

/-- `struct PublicKeyCredentialDescriptor` from types.rs. -/
structure PublicKeyCredentialDescriptor where
  cred_type : String
  id : List Nat
  transports : Option (List String)

/-- `struct MakeCredentialOptions` from types.rs. -/
structure MakeCredentialOptions where
  rk : Option Bool
  uv : Option Bool
  up : Option Bool

/-- `struct GetAssertionOptions` from types.rs. -/
structure GetAssertionOptions where
  up : Option Bool
  uv : Option Bool

/-- `struct MakeCredentialParams` from types.rs (`HashMap` as association
list). -/
structure MakeCredentialParams where
  client_data_hash : List Nat
  rp : RelyingParty
  user : User
  pub_key_cred_params : List PublicKeyCredentialParameter
  exclude_list : Option (List PublicKeyCredentialDescriptor)
  extensions : Option (List (String × JsonValue))
  options : MakeCredentialOptions
  pin_uv_auth_param : Option (List Nat)
  pin_uv_auth_protocol : Option Nat

/-- `struct GetAssertionParams` from types.rs. -/
structure GetAssertionParams where
  rp_id : String
  client_data_hash : List Nat
  allow_list : Option (List PublicKeyCredentialDescriptor)
  extensions : Option (List (String × JsonValue))
  options : GetAssertionOptions
  pin_uv_auth_param : Option (List Nat)
  pin_uv_auth_protocol : Option Nat

/-- `struct AttestationObject` from types.rs. -/
structure AttestationObject where
  fmt : String
  att_stmt : List (String × JsonValue)
  auth_data : List Nat

/-- `struct AssertionObject` from types.rs. -/
structure AssertionObject where
  credential_id : Option (List Nat)
  auth_data : List Nat
  signature : List Nat
  user : Option User

/-- `struct AuthenticatorInfo` from types.rs (`u64` as `Nat`). -/
structure AuthenticatorInfo where
  versions : List String
  extensions : Option (List String)
  aaguid : List Nat
  options : Option (List (String × Bool))
  max_msg_size : Option Nat
  pin_uv_auth_protocols : Option (List Nat)
  max_credential_count_in_list : Option Nat
  max_credential_id_length : Option Nat
  transports : Option (List String)
  algorithms : Option (List PublicKeyCredentialParameter)
  max_serialized_large_blob_array : Option Nat
  force_pin_change : Option Bool
  min_pin_length : Option Nat
  firmware_version : Option Nat
  max_cred_blob_length : Option Nat
  max_rp_ids_for_set_min_pin_length : Option Nat
  preferred_platform_uv_attempts : Option Nat
  uv_modality : Option Nat
  certifications : Option (List (String × JsonValue))
  remaining_discoverable_credentials : Option Nat
  vendor_prototype_config_commands : Option (List Nat)

/-! ## ykey-core/src/error.rs -/

/-- `enum YKeyError` from error.rs.  The `IoError`/`JsonError`/`Generic`
payloads are foreign error types, modelled by their display strings. -/
inductive YKeyError where
  | DeviceNotFound (id : String)
  | UnsupportedDevice (t : DeviceType)
  | CommunicationError (msg : String)
  | CtapError (code : Nat) (message : String)
  | UnexpectedResponse
  | AuthenticationFailed (msg : String)
  | UserCancelled
  | InvalidPin (msg : String)
  | DeviceLocked
  | PinRequired
  | UserVerificationRequired
  | CredentialNotFound (msg : String)
  | InvalidCredential (msg : String)
  | UnsupportedProtocolVersion (v : String)
  | InvalidParameters (msg : String)
  | Timeout (seconds : Nat)
  | PermissionDenied (msg : String)
  | DeviceBusy (msg : String)
  | IoError (msg : String)
  | JsonError (msg : String)
  | Generic (msg : String)
deriving DecidableEq, Repr

/-- One lowercase hexadecimal digit, as used by Rust `format!("{:x}")`. -/
def hexDigit (n : Nat) : String :=
  match n with
  | 0 => "0" | 1 => "1" | 2 => "2" | 3 => "3"
  | 4 => "4" | 5 => "5" | 6 => "6" | 7 => "7"
  | 8 => "8" | 9 => "9" | 10 => "a" | 11 => "b"
  | 12 => "c" | 13 => "d" | 14 => "e" | _ => "f"

/-- Rust `format!("{:#04x}", code)` for a `u8` value: `0x` prefix plus two
lowercase hex digits (width 4 including the prefix). -/
def hexU8 (n : Nat) : String :=
  "0x" ++ hexDigit (n / 16 % 16) ++ hexDigit (n % 16)

namespace YKeyError

/-- `YKeyError::communication` from error.rs. -/
def communication (msg : String) : YKeyError :=
  .CommunicationError msg

/-- `YKeyError::ctap_error` from error.rs: the fixed code-to-message table;
an unmatched code falls through to
`format!("Unknown error code: {:#04x}", code)`. -/
def ctap_error (code : Nat) : YKeyError :=
  let message :=
    match code with
    | 0x01 => "Invalid command"
    | 0x02 => "Invalid parameter"
    | 0x03 => "Invalid length"
    | 0x04 => "Invalid sequence"
    | 0x05 => "Message timeout"
    | 0x06 => "Channel busy"
    | 0x0A => "Lock required"
    | 0x0B => "Invalid channel"
    | 0x10 => "CBOR unexpected type"
    | 0x11 => "Invalid CBOR"
    | 0x12 => "Missing parameter"
    | 0x13 => "Limit exceeded"
    | 0x14 => "Unsupported extension"
    | 0x15 => "Credential excluded"
    | 0x16 => "Processing"
    | 0x17 => "Invalid credential"
    | 0x18 => "User action pending"
    | 0x19 => "Operation pending"
    | 0x1A => "No operations"
    | 0x1B => "Unsupported algorithm"
    | 0x1C => "Operation denied"
    | 0x1D => "Key store full"
    | 0x1E => "No operation pending"
    | 0x1F => "Unsupported option"
    | 0x20 => "Invalid option"
    | 0x21 => "Keep alive cancel"
    | 0x22 => "No credentials"
    | 0x23 => "User action timeout"
    | 0x24 => "Not allowed"
    | 0x25 => "PIN invalid"
    | 0x26 => "PIN blocked"
    | 0x27 => "PIN auth invalid"
    | 0x28 => "PIN auth blocked"
    | 0x29 => "PIN not set"
    | 0x2A => "PIN required"
    | 0x2B => "PIN policy violation"
    | 0x2C => "PIN token expired"
    | 0x2D => "Request too large"
    | 0x2E => "Action timeout"
    | 0x2F => "Up required"
    | 0x30 => "UV blocked"
    | 0x31 => "Integrity failure"
    | 0x32 => "Invalid subcommand"
    | 0x33 => "UV invalid"
    | 0x34 => "Unauthorized permission"
    | _ => "Unknown error code: " ++ hexU8 code
  .CtapError code message

/-- `YKeyError::timeout` from error.rs. -/
def timeout (seconds : Nat) : YKeyError :=
  .Timeout seconds

/-- `YKeyError::is_device_locked` from error.rs:
`matches!(self, DeviceLocked | CtapError { code: 0x26, .. })`. -/
def is_device_locked : YKeyError → Bool
  | .DeviceLocked => true
  | .CtapError code _ => code == 0x26
  | _ => false

/-- `YKeyError::is_pin_required` from error.rs:
`matches!(self, PinRequired | CtapError { code: 0x2A, .. })`. -/
def is_pin_required : YKeyError → Bool
  | .PinRequired => true
  | .CtapError code _ => code == 0x2A
  | _ => false

/-- `YKeyError::is_user_verification_required` from error.rs:
`matches!(self, UserVerificationRequired | CtapError { code: 0x2F, .. })`. -/
def is_user_verification_required : YKeyError → Bool
  | .UserVerificationRequired => true
  | .CtapError code _ => code == 0x2F
  | _ => false

/-- `YKeyError::is_retryable` from error.rs:
`matches!(self, DeviceBusy(_) | Timeout { .. } | CommunicationError(_)
| CtapError { code: 0x06, .. } | CtapError { code: 0x16, .. })`. -/
def is_retryable : YKeyError → Bool
  | .DeviceBusy _ => true
  | .Timeout _ => true
  | .CommunicationError _ => true
  | .CtapError code _ => code == 0x06 || code == 0x16
  | _ => false

end YKeyError

/-! ## ykey-protocol/src/lib.rs — commands, responses, codec -/

/-- `enum ClientPinCommand` from ykey-protocol. -/
inductive ClientPinCommand where
  | SetPin (pin : String)
  | ChangePin (old_pin : String) (new_pin : String)
  | GetPinToken (pin : String)

/-- `enum CtapCommand` from ykey-protocol. -/
inductive CtapCommand where
  | GetInfo
  | MakeCredential (p : MakeCredentialParams)
  | GetAssertion (p : GetAssertionParams)
  | Reset
  | ClientPin (c : ClientPinCommand)
  | GetNextAssertion
  | Cancel

/-- `enum CtapResponse` from ykey-protocol. -/
inductive CtapResponse where
  | GetInfo (info : AuthenticatorInfo)
  | MakeCredential (a : AttestationObject)
  | GetAssertion (a : AssertionObject)
  | Reset
  | ClientPin
  | ClientPinToken (tok : List Nat)
  | Cancel
  | Error (code : Nat)

/-- `CtapCommand::encode` from ykey-protocol (the source comment reads
"Encode command to bytes (simplified for now)": parameterized commands
contribute no payload bytes). -/
def CtapCommand.encode : CtapCommand → Except YKeyError (List Nat)
  | .GetInfo => .ok [0x04]
  | .MakeCredential _ => .ok [0x01]
  | .GetAssertion _ => .ok [0x02]
  | .Reset => .ok [0x07]
  | .ClientPin _ => .ok [0x06]
  | .GetNextAssertion => .ok [0x08]
  | .Cancel => .ok [0x3F, 0x00, 0x00, 0x00]

/-- The hard-coded `AuthenticatorInfo` that `CtapResponse::decode` returns for
any multi-byte success payload ("For now, return a mock AuthenticatorInfo for
GetInfo"). -/
def mockGetInfo : AuthenticatorInfo where
  versions := ["FIDO_2_0"]
  extensions := some ["hmac-secret"]
  aaguid := List.replicate 16 0
  options := none
  max_msg_size := some 1200
  pin_uv_auth_protocols := some [1]
  max_credential_count_in_list := some 8
  max_credential_id_length := some 128
  transports := some ["usb"]
  algorithms := none
  max_serialized_large_blob_array := none
  force_pin_change := none
  min_pin_length := some 4
  firmware_version := none
  max_cred_blob_length := none
  max_rp_ids_for_set_min_pin_length := none
  preferred_platform_uv_attempts := none
  uv_modality := none
  certifications := none
  remaining_discoverable_credentials := none
  vendor_prototype_config_commands := none

/-- `CtapResponse::decode` from ykey-protocol.  Note the signature: it takes
only the response bytes — the originating command is not an input.  Byte 0 is
the status; `0x00` with a one-byte response decodes to `Reset`, `0x00` with a
longer response decodes to the mock `GetInfo`, and any non-zero status byte
decodes to `Error`. -/
def CtapResponse.decode (data : List Nat) : Except YKeyError CtapResponse :=
  match data with
  | [] => .error (YKeyError.communication "Empty response")
  | b :: rest =>
    match b with
    | 0 =>
      if rest.isEmpty then .ok .Reset
      else .ok (.GetInfo mockGetInfo)
    | _ => .ok (.Error b)

/-! ## ykey-protocol/src/lib.rs — Fido2Client

The client's mutable state is `pin_token`, `pin_protocol_version` and
`timeout` (the `Duration` is modelled in whole seconds, which is all
`send_ctap_command` observes via `timeout.as_secs()`).  The device field is
the I/O boundary: a single request/response exchange with
`tokio::time::timeout(timeout, device.send_raw(data))` is modelled by a
`RawOutcome` argument — the wait timed out, the device failed, or the device
answered with bytes. -/

/-- Client session state (`struct Fido2Client` minus the device handle). -/
structure Fido2Client where
  pin_token : Option (List Nat)
  pin_protocol_version : Option Nat
  timeout : Nat
deriving DecidableEq, Repr

/-- Outcome of one raw transport exchange, as observed by
`send_ctap_command`. -/
inductive RawOutcome where
  | timeout
  | deviceError (msg : String)
  | ok (bytes : List Nat)

namespace Fido2Client

/-- `Fido2Client::new`: empty PIN state, 30 second timeout. -/
def new : Fido2Client :=
  { pin_token := none, pin_protocol_version := none, timeout := 30 }

/-- `Fido2Client::with_timeout`. -/
def with_timeout (t : Nat) : Fido2Client :=
  { pin_token := none, pin_protocol_version := none, timeout := t }

/-- `Fido2Client::set_timeout`. -/
def set_timeout (c : Fido2Client) (t : Nat) : Fido2Client :=
  { c with timeout := t }

/-- `Fido2Client::clear_pin_token`. -/
def clear_pin_token (c : Fido2Client) : Fido2Client :=
  { c with pin_token := none, pin_protocol_version := none }

/-- `Fido2Client::has_pin_token`. -/
def has_pin_token (c : Fido2Client) : Bool :=
  c.pin_token.isSome

/-- `Fido2Client::send_ctap_command`: encode the command, perform the single
timeout-bounded raw exchange, decode the response.  A timeout becomes
`YKeyError::timeout(timeout.as_secs())`; a device failure becomes a
`CommunicationError` with the "Device communication failed: " prefix. -/
def send_ctap_command (c : Fido2Client) (command : CtapCommand)
    (raw : RawOutcome) : Except YKeyError CtapResponse :=
  match command.encode with
  | .error e => .error e
  | .ok _data =>
    match raw with
    | .timeout => .error (YKeyError.timeout c.timeout)
    | .deviceError msg =>
        .error (YKeyError.communication ("Device communication failed: " ++ msg))
    | .ok bytes => CtapResponse.decode bytes

/-- The raw packets `send_ctap_command` hands to `device.send_raw`: the
encoded command (none if encoding failed — it never does). -/
def sctcSends (command : CtapCommand) : List (List Nat) :=
  match command.encode with
  | .error _ => []
  | .ok data => [data]

/-! Each operation `op` of the `Fido2Protocol` impl is split in two:
`op_resp` is the `match response { ... }` continuation that runs on the value
returned by `send_ctap_command` (an early `?`-propagated error leaves the
state untouched), and `op` is the whole method body wired through
`send_ctap_command`, also returning the packets sent. -/

/-- Response handling of `Fido2Protocol::get_info`. -/
def get_info_resp (c : Fido2Client) (resp : Except YKeyError CtapResponse) :
    Except YKeyError AuthenticatorInfo × Fido2Client :=
  match resp with
  | .error e => (.error e, c)
  | .ok (.GetInfo info) => (.ok info, c)
  | .ok (.Error code) => (.error (YKeyError.ctap_error code), c)
  | .ok _ => (.error .UnexpectedResponse, c)

/-- `Fido2Protocol::get_info`. -/
def get_info (c : Fido2Client) (raw : RawOutcome) :
    Except YKeyError AuthenticatorInfo × Fido2Client × List (List Nat) :=
  let command := CtapCommand.GetInfo
  let r := c.get_info_resp (c.send_ctap_command command raw)
  (r.1, r.2, sctcSends command)

/-- Response handling of `Fido2Protocol::make_credential`. -/
def make_credential_resp (c : Fido2Client)
    (resp : Except YKeyError CtapResponse) :
    Except YKeyError AttestationObject × Fido2Client :=
  match resp with
  | .error e => (.error e, c)
  | .ok (.MakeCredential attestation) => (.ok attestation, c)
  | .ok (.Error code) => (.error (YKeyError.ctap_error code), c)
  | .ok _ => (.error .UnexpectedResponse, c)

/-- `Fido2Protocol::make_credential`. -/
def make_credential (c : Fido2Client) (params : MakeCredentialParams)
    (raw : RawOutcome) :
    Except YKeyError AttestationObject × Fido2Client × List (List Nat) :=
  let command := CtapCommand.MakeCredential params
  let r := c.make_credential_resp (c.send_ctap_command command raw)
  (r.1, r.2, sctcSends command)

/-- Response handling of `Fido2Protocol::get_assertion`. -/
def get_assertion_resp (c : Fido2Client)
    (resp : Except YKeyError CtapResponse) :
    Except YKeyError AssertionObject × Fido2Client :=
  match resp with
  | .error e => (.error e, c)
  | .ok (.GetAssertion assertion) => (.ok assertion, c)
  | .ok (.Error code) => (.error (YKeyError.ctap_error code), c)
  | .ok _ => (.error .UnexpectedResponse, c)

/-- `Fido2Protocol::get_assertion`. -/
def get_assertion (c : Fido2Client) (params : GetAssertionParams)
    (raw : RawOutcome) :
    Except YKeyError AssertionObject × Fido2Client × List (List Nat) :=
  let command := CtapCommand.GetAssertion params
  let r := c.get_assertion_resp (c.send_ctap_command command raw)
  (r.1, r.2, sctcSends command)

/-- Response handling of `Fido2Protocol::reset`: on `CtapResponse::Reset`
clear any stored PIN token. -/
def reset_resp (c : Fido2Client) (resp : Except YKeyError CtapResponse) :
    Except YKeyError Unit × Fido2Client :=
  match resp with
  | .error e => (.error e, c)
  | .ok .Reset => (.ok (), c.clear_pin_token)
  | .ok (.Error code) => (.error (YKeyError.ctap_error code), c)
  | .ok _ => (.error .UnexpectedResponse, c)

/-- `Fido2Protocol::reset`. -/
def reset (c : Fido2Client) (raw : RawOutcome) :
    Except YKeyError Unit × Fido2Client × List (List Nat) :=
  let command := CtapCommand.Reset
  let r := c.reset_resp (c.send_ctap_command command raw)
  (r.1, r.2, sctcSends command)

/-- Response handling of `Fido2Protocol::set_pin`. -/
def set_pin_resp (c : Fido2Client) (resp : Except YKeyError CtapResponse) :
    Except YKeyError Unit × Fido2Client :=
  match resp with
  | .error e => (.error e, c)
  | .ok .ClientPin => (.ok (), c)
  | .ok (.Error code) => (.error (YKeyError.ctap_error code), c)
  | .ok _ => (.error .UnexpectedResponse, c)

/-- `Fido2Protocol::set_pin`: `pin.len()` (UTF-8 byte length) outside 4..=8 is
rejected with `InvalidParameters` before anything is sent. -/
def set_pin (c : Fido2Client) (pin : String) (raw : RawOutcome) :
    Except YKeyError Unit × Fido2Client × List (List Nat) :=
  if pin.utf8ByteSize < 4 ∨ pin.utf8ByteSize > 8 then
    (.error (.InvalidParameters "PIN must be 4-8 characters"), c, [])
  else
    let command := CtapCommand.ClientPin (.SetPin pin)
    let r := c.set_pin_resp (c.send_ctap_command command raw)
    (r.1, r.2, sctcSends command)

/-- Response handling of `Fido2Protocol::change_pin`: on
`CtapResponse::ClientPin` clear the stored PIN token. -/
def change_pin_resp (c : Fido2Client) (resp : Except YKeyError CtapResponse) :
    Except YKeyError Unit × Fido2Client :=
  match resp with
  | .error e => (.error e, c)
  | .ok .ClientPin => (.ok (), c.clear_pin_token)
  | .ok (.Error code) => (.error (YKeyError.ctap_error code), c)
  | .ok _ => (.error .UnexpectedResponse, c)

/-- `Fido2Protocol::change_pin`: `new_pin.len()` (UTF-8 byte length) outside
4..=8 is rejected with `InvalidParameters` before anything is sent; the old
PIN is not validated. -/
def change_pin (c : Fido2Client) (old_pin new_pin : String)
    (raw : RawOutcome) :
    Except YKeyError Unit × Fido2Client × List (List Nat) :=
  if new_pin.utf8ByteSize < 4 ∨ new_pin.utf8ByteSize > 8 then
    (.error (.InvalidParameters "PIN must be 4-8 characters"), c, [])
  else
    let command := CtapCommand.ClientPin (.ChangePin old_pin new_pin)
    let r := c.change_pin_resp (c.send_ctap_command command raw)
    (r.1, r.2, sctcSends command)

/-- Response handling of `Fido2Protocol::verify_pin`: on
`CtapResponse::ClientPinToken` store the token and protocol version 1. -/
def verify_pin_resp (c : Fido2Client) (resp : Except YKeyError CtapResponse) :
    Except YKeyError (List Nat) × Fido2Client :=
  match resp with
  | .error e => (.error e, c)
  | .ok (.ClientPinToken token) =>
      (.ok token,
       { c with pin_token := some token, pin_protocol_version := some 1 })
  | .ok (.Error code) => (.error (YKeyError.ctap_error code), c)
  | .ok _ => (.error .UnexpectedResponse, c)

/-- `Fido2Protocol::verify_pin`: note there is no PIN length check — the
command is built and sent for every PIN string. -/
def verify_pin (c : Fido2Client) (pin : String) (raw : RawOutcome) :
    Except YKeyError (List Nat) × Fido2Client × List (List Nat) :=
  let command := CtapCommand.ClientPin (.GetPinToken pin)
  let r := c.verify_pin_resp (c.send_ctap_command command raw)
  (r.1, r.2, sctcSends command)

/-- Response handling of `Fido2Protocol::get_next_assertion`. -/
def get_next_assertion_resp (c : Fido2Client)
    (resp : Except YKeyError CtapResponse) :
    Except YKeyError AssertionObject × Fido2Client :=
  match resp with
  | .error e => (.error e, c)
  | .ok (.GetAssertion assertion) => (.ok assertion, c)
  | .ok (.Error code) => (.error (YKeyError.ctap_error code), c)
  | .ok _ => (.error .UnexpectedResponse, c)

/-- `Fido2Protocol::get_next_assertion`. -/
def get_next_assertion (c : Fido2Client) (raw : RawOutcome) :
    Except YKeyError AssertionObject × Fido2Client × List (List Nat) :=
  let command := CtapCommand.GetNextAssertion
  let r := c.get_next_assertion_resp (c.send_ctap_command command raw)
  (r.1, r.2, sctcSends command)

/-- Response handling of `Fido2Protocol::cancel`. -/
def cancel_resp (c : Fido2Client) (resp : Except YKeyError CtapResponse) :
    Except YKeyError Unit × Fido2Client :=
  match resp with
  | .error e => (.error e, c)
  | .ok .Cancel => (.ok (), c)
  | .ok (.Error code) => (.error (YKeyError.ctap_error code), c)
  | .ok _ => (.error .UnexpectedResponse, c)

/-- `Fido2Protocol::cancel`. -/
def cancel (c : Fido2Client) (raw : RawOutcome) :
    Except YKeyError Unit × Fido2Client × List (List Nat) :=
  let command := CtapCommand.Cancel
  let r := c.cancel_resp (c.send_ctap_command command raw)
  (r.1, r.2, sctcSends command)

end Fido2Client

end YKey

namespace YKey

/-! ## ykey-device/src/lib.rs — DeviceManager

`DeviceManager` holds discovery sources, a factory and the connection table
(`HashMap<String, Box<dyn Device>>` behind an `RwLock`).  The embedding is
parametric in the device type `Dev`: a discovery source is modelled by the
result its `scan()` returns, the factory's `create_device` and the device's
`connect`/`disconnect` calls by explicit function fields, and the hash map by
an association list with at most one entry per key. -/

/-- The id-comparator `|a, b| a.id.cmp(&b.id)` passed to `sort_by`, as the
underlying total order.  Rust's `Ord` on `String` is byte-lexicographic, and
on UTF-8 data the byte order coincides with code-point lexicographic order,
embedded here as the order on the string's character list. -/
def idLe (a b : DeviceInfo) : Prop :=
  a.id.data ≤ b.id.data

instance : DecidableRel idLe :=
  fun a b => inferInstanceAs (Decidable (a.id.data ≤ b.id.data))

instance : IsTotal DeviceInfo idLe :=
  ⟨fun a b => le_total a.id.data b.id.data⟩

instance : IsTrans DeviceInfo idLe :=
  ⟨fun _ _ _ h1 h2 => le_trans h1 h2⟩

/-- Tail of `Vec::dedup_by(|a, b| a.id == b.id)`: `prev` is the most recently
retained element; a current element whose id equals `prev.id` is dropped,
otherwise it is retained and becomes the new `prev`. -/
def dedupByIdAux (prev : DeviceInfo) : List DeviceInfo → List DeviceInfo
  | [] => []
  | x :: xs =>
    if x.id = prev.id then dedupByIdAux prev xs
    else x :: dedupByIdAux x xs

/-- `all_devices.dedup_by(|a, b| a.id == b.id)`: remove consecutive entries
with equal ids, keeping the first of each run. -/
def dedupById : List DeviceInfo → List DeviceInfo
  | [] => []
  | x :: xs => x :: dedupByIdAux x xs

/-- The loop of `DeviceManager::scan_devices`: call every discovery source in
order, concatenating results; `?` aborts at the first failing source. -/
def collectScans : List (Except YKeyError (List DeviceInfo)) →
    Except YKeyError (List DeviceInfo)
  | [] => .ok []
  | s :: rest =>
    match s with
    | .error e => .error e
    | .ok ds =>
      match collectScans rest with
      | .error e => .error e
      | .ok more => .ok (ds ++ more)

/-- `DeviceManager::scan_devices`: aggregate all sources, then
`sort_by(|a, b| a.id.cmp(&b.id))` (a stable sort, embedded as insertion sort)
followed by `dedup_by(|a, b| a.id == b.id)`. -/
def scan_devices (scans : List (Except YKeyError (List DeviceInfo))) :
    Except YKeyError (List DeviceInfo) :=
  match collectScans scans with
  | .error e => .error e
  | .ok all_devices => .ok (dedupById (List.insertionSort idLe all_devices))

/-- `HashMap::insert` on the association-list model: replace the value of an
existing key, otherwise add the binding. -/
def insertTable {Dev : Type} (k : String) (v : Dev) :
    List (String × Dev) → List (String × Dev)
  | [] => [(k, v)]
  | (k2, v2) :: rest =>
    if k2 = k then (k, v) :: rest
    else (k2, v2) :: insertTable k v rest

/-- `HashMap::remove` on the association-list model: return the removed value
and the remaining table, or `none` when the key is absent. -/
def removeEntry {Dev : Type} (k : String) :
    List (String × Dev) → Option (Dev × List (String × Dev))
  | [] => none
  | (k2, v2) :: rest =>
    if k2 = k then some (v2, rest)
    else
      match removeEntry k rest with
      | none => none
      | some (d, rest2) => some (d, (k2, v2) :: rest2)

/-- `DeviceManager` state plus its external collaborators: `scans` is what the
discovery sources return, `createDev` is `factory.create_device`, `connectDev`
and `disconnectDev` are the device's own connect/disconnect calls (returning
the updated device handle), and `table` is the connection table. -/
structure Manager (Dev : Type) where
  scans : List (Except YKeyError (List DeviceInfo))
  createDev : DeviceInfo → Except YKeyError Dev
  connectDev : Dev → Except YKeyError Dev
  disconnectDev : Dev → Except YKeyError Dev
  table : List (String × Dev)

/-- `DeviceManager::connect_device`: re-scan, locate the id, create the device
via the factory, connect it, and only then insert it into the table; any `?`
failure returns early with the manager untouched. -/
def connect_device {Dev : Type} (m : Manager Dev) (device_id : String) :
    Except YKeyError Unit × Manager Dev :=
  match scan_devices m.scans with
  | .error e => (.error e, m)
  | .ok devices =>
    match devices.find? (fun d => d.id == device_id) with
    | none => (.error (.DeviceNotFound device_id), m)
    | some device_info =>
      match m.createDev device_info with
      | .error e => (.error e, m)
      | .ok device =>
        match m.connectDev device with
        | .error e => (.error e, m)
        | .ok device2 =>
            (.ok (), { m with table := insertTable device_id device2 m.table })

/-- `DeviceManager::disconnect_device`: remove the entry if present and call
its disconnect (whose failure propagates after the removal); an absent id is
simply `Ok(())`. -/
def disconnect_device {Dev : Type} (m : Manager Dev) (device_id : String) :
    Except YKeyError Unit × Manager Dev :=
  match removeEntry device_id m.table with
  | none => (.ok (), m)
  | some (device, rest) =>
    match m.disconnectDev device with
    | .ok _ => (.ok (), { m with table := rest })
    | .error e => (.error e, { m with table := rest })

end YKey

namespace YKey

/-! ## Dedup-after-stable-sort lemmas (for the scan_devices claims) -/

/-- `dedupByIdAux` only drops elements. -/
lemma dedupByIdAux_sublist (xs : List DeviceInfo) :
    ∀ prev, (dedupByIdAux prev xs).Sublist xs := by
  induction xs with
  | nil => intro prev; simp [dedupByIdAux]
  | cons x xs ih =>
    intro prev
    simp only [dedupByIdAux]
    split
    · exact (ih prev).trans (List.sublist_cons_self x xs)
    · exact (ih x).cons₂ x

/-- `dedupById` only drops elements. -/
lemma dedupById_sublist (xs : List DeviceInfo) : (dedupById xs).Sublist xs := by
  cases xs with
  | nil => simp [dedupById]
  | cons x xs => exact (dedupByIdAux_sublist xs x).cons₂ x

/-- On a run-sorted tail whose elements all dominate `prev`, `dedupByIdAux`
produces entries strictly above `prev`, each of which is the first element of
its id-run, pairwise strictly increasing in id. -/
lemma dedupByIdAux_invariant (xs : List DeviceInfo) :
    ∀ prev, List.Pairwise idLe xs → (∀ x ∈ xs, prev.id.data ≤ x.id.data) →
      (∀ y ∈ dedupByIdAux prev xs,
          prev.id.data < y.id.data ∧
          xs.find? (fun x => x.id == y.id) = some y) ∧
      List.Pairwise (fun a b => a.id.data < b.id.data) (dedupByIdAux prev xs) := by
  induction xs with
  | nil =>
    intro prev _ _
    constructor
    · intro y hy; simp [dedupByIdAux] at hy
    · simp [dedupByIdAux]
  | cons x xs ih =>
    intro prev hpw hge
    obtain ⟨hx, hxs⟩ := List.pairwise_cons.mp hpw
    have hprevx : prev.id.data ≤ x.id.data := hge x (List.mem_cons_self x xs)
    simp only [dedupByIdAux]
    split
    case isTrue heq =>
      obtain ⟨hmem, hpw2⟩ :=
        ih prev hxs (fun z hz => hge z (List.mem_cons_of_mem x hz))
      refine ⟨?_, hpw2⟩
      intro y hy
      obtain ⟨hlt, hfind⟩ := hmem y hy
      refine ⟨hlt, ?_⟩
      rw [List.find?_cons_of_neg _ ?_, hfind]
      simp only [beq_iff_eq, heq]
      intro hcontra
      exact absurd (congrArg String.data hcontra) (ne_of_lt hlt)
    case isFalse hne =>
      have hlt : prev.id.data < x.id.data := by
        rcases lt_or_eq_of_le hprevx with h | h
        · exact h
        · exact absurd (String.ext h.symm) hne
      obtain ⟨hmem, hpw2⟩ := ih x hxs hx
      constructor
      · intro y hy
        rcases List.mem_cons.mp hy with rfl | hy2
        · refine ⟨hlt, ?_⟩
          rw [List.find?_cons_of_pos]
          simp
        · obtain ⟨hlt2, hfind⟩ := hmem y hy2
          refine ⟨lt_trans hlt hlt2, ?_⟩
          rw [List.find?_cons_of_neg _ ?_, hfind]
          simp only [beq_iff_eq]
          intro hcontra
          exact absurd (congrArg String.data hcontra) (ne_of_lt hlt2)
      · exact List.pairwise_cons.mpr ⟨fun y hy => (hmem y hy).1, hpw2⟩

/-- Every id that entered `dedupByIdAux` is represented, either by `prev` or
by a retained entry. -/
lemma dedupByIdAux_cover (xs : List DeviceInfo) :
    ∀ prev, ∀ d ∈ xs,
      d.id = prev.id ∨ ∃ y ∈ dedupByIdAux prev xs, y.id = d.id := by
  induction xs with
  | nil => intro prev d hd; simp at hd
  | cons x xs ih =>
    intro prev d hd
    simp only [dedupByIdAux]
    rcases List.mem_cons.mp hd with rfl | hd2
    · split
      case isTrue heq => exact Or.inl heq
      case isFalse hne =>
        exact Or.inr ⟨d, List.mem_cons_self d _, rfl⟩
    · split
      case isTrue heq =>
        rcases ih prev d hd2 with h | ⟨y, hy, hyid⟩
        · exact Or.inl h
        · exact Or.inr ⟨y, hy, hyid⟩
      case isFalse hne =>
        rcases ih x d hd2 with h | ⟨y, hy, hyid⟩
        · exact Or.inr ⟨x, List.mem_cons_self x _, h.symm⟩
        · exact Or.inr ⟨y, List.mem_cons_of_mem x hy, hyid⟩

/-- On a sorted list, `dedupById` is strictly increasing in id and each
retained entry is the first entry of the input carrying its id. -/
lemma dedupById_of_sorted (xs : List DeviceInfo) (h : List.Pairwise idLe xs) :
    List.Pairwise (fun a b => a.id.data < b.id.data) (dedupById xs) ∧
    (∀ y ∈ dedupById xs, xs.find? (fun x => x.id == y.id) = some y) := by
  cases xs with
  | nil => constructor <;> simp [dedupById]
  | cons x xs =>
    obtain ⟨hx, hxs⟩ := List.pairwise_cons.mp h
    obtain ⟨hmem, hpw⟩ := dedupByIdAux_invariant xs x hxs hx
    constructor
    · exact List.pairwise_cons.mpr ⟨fun y hy => (hmem y hy).1, hpw⟩
    · intro y hy
      simp only [dedupById] at hy
      rcases List.mem_cons.mp hy with rfl | hy2
      · rw [List.find?_cons_of_pos]
        simp
      · obtain ⟨hlt, hfind⟩ := hmem y hy2
        rw [List.find?_cons_of_neg _ ?_, hfind]
        simp only [beq_iff_eq]
        intro hcontra
        exact absurd (congrArg String.data hcontra) (ne_of_lt hlt)

/-- Every id of the input to `dedupById` is represented in the output. -/
lemma dedupById_cover (xs : List DeviceInfo) :
    ∀ d ∈ xs, ∃ y ∈ dedupById xs, y.id = d.id := by
  intro d hd
  cases xs with
  | nil => simp at hd
  | cons x xs =>
    simp only [dedupById]
    rcases List.mem_cons.mp hd with rfl | hd2
    · exact ⟨d, List.mem_cons_self d _, rfl⟩
    · rcases dedupByIdAux_cover xs x d hd2 with h | ⟨y, hy, hyid⟩
      · exact ⟨x, List.mem_cons_self x _, h.symm⟩
      · exact ⟨y, List.mem_cons_of_mem x hy, hyid⟩

/-- Collecting the per-source scan results succeeds with their concatenation
when every source succeeds. -/
lemma collectScans_ok (srcs : List (List DeviceInfo)) :
    collectScans (srcs.map Except.ok) = .ok srcs.flatten := by
  induction srcs with
  | nil => rfl
  | cons s ss ih => simp [collectScans, ih]

end YKey

namespace YKey

/-! ## Claim theorems for the Device Manager -/

/-- C5.  For every list of discovery sources (modelled by the device lists
they return) `scan_devices` succeeds and its output is sorted by id, has
pairwise-distinct ids (exactly one entry per distinct id of the input), every
retained entry is one of the source entries, every source id is represented,
and each retained entry is the first entry carrying its id in the stably
sorted concatenation — all regardless of source ordering, since the
properties hold for every `srcs`. -/
theorem scan_devices_dedup (srcs : List (List DeviceInfo)) :
    ∃ out, scan_devices (srcs.map Except.ok) = .ok out ∧
      List.Pairwise idLe out ∧
      (out.map DeviceInfo.id).Nodup ∧
      (∀ e ∈ out, e ∈ srcs.flatten) ∧
      (∀ d ∈ srcs.flatten, ∃ e ∈ out, e.id = d.id) ∧
      (∀ e ∈ out,
        (List.insertionSort idLe srcs.flatten).find? (fun x => x.id == e.id)
          = some e) := by
  have hsorted : List.Pairwise idLe (List.insertionSort idLe srcs.flatten) :=
    List.sorted_insertionSort idLe srcs.flatten
  have hperm := List.perm_insertionSort idLe srcs.flatten
  obtain ⟨hlt, hfind⟩ :=
    dedupById_of_sorted (List.insertionSort idLe srcs.flatten) hsorted
  refine ⟨dedupById (List.insertionSort idLe srcs.flatten), ?_, ?_, ?_, ?_, ?_, hfind⟩
  · simp [scan_devices, collectScans_ok srcs]
  · exact hlt.imp (fun h => le_of_lt h)
  · refine List.pairwise_map.mpr (hlt.imp ?_)
    intro a b h hcontra
    exact absurd (congrArg String.data hcontra) (ne_of_lt h)
  · intro e he
    exact hperm.subset
      ((dedupById_sublist (List.insertionSort idLe srcs.flatten)).subset he)
  · intro d hd
    exact dedupById_cover (List.insertionSort idLe srcs.flatten) d
      (hperm.mem_iff.mpr hd)

/-- A sample `DeviceInfo`, analogous to the repository's test helper. -/
def sampleDev (i : String) : DeviceInfo where
  id := i
  name := "Test Device " ++ i
  manufacturer := "Test Manufacturer"
  product_name := "Test Product"
  serial_number := none
  vendor_id := 0x1234
  product_id := 0x5678
  device_type := .YubiKey
  transport := .Usb
  capabilities := [.Fido2]
  firmware_version := none
  last_seen := 0

/-- Closed instantiation of `scan_devices_dedup` on the two overlapping
sources of the spec's scenario (`[b] , [a, b]`). -/
theorem scan_devices_dedup_witness :
    ∃ out, scan_devices ([[sampleDev "b"], [sampleDev "a", sampleDev "b"]].map Except.ok) = .ok out ∧
      List.Pairwise idLe out ∧
      (out.map DeviceInfo.id).Nodup ∧
      (∀ e ∈ out, e ∈ [[sampleDev "b"], [sampleDev "a", sampleDev "b"]].flatten) ∧
      (∀ d ∈ [[sampleDev "b"], [sampleDev "a", sampleDev "b"]].flatten,
        ∃ e ∈ out, e.id = d.id) ∧
      (∀ e ∈ out,
        (List.insertionSort idLe
            [[sampleDev "b"], [sampleDev "a", sampleDev "b"]].flatten).find?
          (fun x => x.id == e.id) = some e) :=
  scan_devices_dedup [[sampleDev "b"], [sampleDev "a", sampleDev "b"]]

/-- C6.  `connect_device` fails with `DeviceNotFound` when the id is absent
from the fresh scan, leaves the manager untouched whenever it returns an
error (failure at the scan, lookup, factory or connect step), and inserts
into the connection table exactly when it returns `Ok`. -/
theorem connect_device_table_discipline {Dev : Type} (m : Manager Dev)
    (id : String) :
    (∀ devices, scan_devices m.scans = .ok devices →
        (∀ d ∈ devices, d.id ≠ id) →
        connect_device m id = (.error (.DeviceNotFound id), m)) ∧
    (∀ e, (connect_device m id).1 = .error e → (connect_device m id).2 = m) ∧
    ((connect_device m id).1 = .ok () →
        ∃ dv, (connect_device m id).2.table = insertTable id dv m.table) := by
  refine ⟨?_, ?_, ?_⟩
  · intro devices hscan hab
    have hfind : devices.find? (fun d => d.id == id) = none := by
      rw [List.find?_eq_none]
      intro d hd
      simp [hab d hd]
    simp [connect_device, hscan, hfind]
  · intro e
    unfold connect_device
    cases hscan : scan_devices m.scans with
    | error e2 => simp
    | ok devices =>
      cases hfind : devices.find? (fun d => d.id == id) with
      | none => simp [hfind]
      | some info =>
        cases hc : m.createDev info with
        | error e2 => simp [hfind, hc]
        | ok dev =>
          cases hcon : m.connectDev dev with
          | error e2 => simp [hfind, hc, hcon]
          | ok dev2 => simp [hfind, hc, hcon]
  · unfold connect_device
    cases hscan : scan_devices m.scans with
    | error e2 => simp
    | ok devices =>
      cases hfind : devices.find? (fun d => d.id == id) with
      | none => simp [hfind]
      | some info =>
        cases hc : m.createDev info with
        | error e2 => simp [hfind, hc]
        | ok dev =>
          cases hcon : m.connectDev dev with
          | error e2 => simp [hfind, hc, hcon]
          | ok dev2 =>
            intro _
            refine ⟨dev2, ?_⟩
            simp [hfind, hc, hcon]

/-- A sample manager over `Nat`-modelled devices: one discovered device with
id `a`, an always-succeeding factory and connect/disconnect, one table
entry keyed `a`. -/
def sampleManager : Manager Nat where
  scans := [.ok [sampleDev "a"]]
  createDev := fun _ => .ok 0
  connectDev := fun d => .ok d
  disconnectDev := fun d => .ok d
  table := [("a", 0)]

/-- Closed instantiation of `connect_device_table_discipline`: connecting to
the absent id `zzz` fails with `DeviceNotFound` and the manager is
unchanged. -/
theorem connect_device_table_discipline_witness :
    connect_device sampleManager "zzz" =
      (.error (.DeviceNotFound "zzz"), sampleManager) :=
  (connect_device_table_discipline sampleManager "zzz").1
    [sampleDev "a"] rfl (by decide)

/-- `removeEntry` misses when no key matches. -/
lemma removeEntry_eq_none {Dev : Type} (id : String)
    (t : List (String × Dev)) (h : ∀ kv ∈ t, kv.1 ≠ id) :
    removeEntry id t = none := by
  induction t with
  | nil => rfl
  | cons kv rest ih =>
    obtain ⟨k2, v2⟩ := kv
    simp only [removeEntry]
    rw [if_neg (h (k2, v2) (List.mem_cons_self _ _))]
    rw [ih (fun x hx => h x (List.mem_cons_of_mem _ hx))]

/-- C8.  Disconnecting an id that has no entry in the connection table
returns `Ok` and leaves the manager (in particular its table) unchanged. -/
theorem disconnect_device_absent {Dev : Type} (m : Manager Dev) (id : String)
    (h : ∀ kv ∈ m.table, kv.1 ≠ id) :
    disconnect_device m id = (.ok (), m) := by
  simp [disconnect_device, removeEntry_eq_none id m.table h]

/-- Closed instantiation of `disconnect_device_absent` on the sample manager,
whose table holds only the key `a`. -/
theorem disconnect_device_absent_witness :
    disconnect_device sampleManager "b" = (.ok (), sampleManager) :=
  disconnect_device_absent sampleManager "b" (by decide)

end YKey

namespace YKey

/-! ## Claim theorems for the Fido2Client engine -/

/-- C1.  Token lifecycle over the response-handling step of each operation,
for an arbitrary prior engine state and an arbitrary `send_ctap_command`
result: a verify_pin that returns `Ok` leaves a PIN token; a reset or
change_pin that returns `Ok` leaves none. -/
theorem pin_token_lifecycle (c : Fido2Client) (tok : List Nat)
    (r1 r2 r3 : Except YKeyError CtapResponse) :
    ((c.verify_pin_resp r1).1 = .ok tok →
      (c.verify_pin_resp r1).2.has_pin_token = true) ∧
    ((c.reset_resp r2).1 = .ok () →
      (c.reset_resp r2).2.has_pin_token = false) ∧
    ((c.change_pin_resp r3).1 = .ok () →
      (c.change_pin_resp r3).2.has_pin_token = false) := by
  refine ⟨?_, ?_, ?_⟩
  · intro h
    rcases r1 with e | resp
    · simp [Fido2Client.verify_pin_resp] at h
    · cases resp <;>
        simp_all [Fido2Client.verify_pin_resp, Fido2Client.has_pin_token]
  · intro h
    rcases r2 with e | resp
    · simp [Fido2Client.reset_resp] at h
    · cases resp <;>
        simp_all [Fido2Client.reset_resp, Fido2Client.has_pin_token,
          Fido2Client.clear_pin_token]
  · intro h
    rcases r3 with e | resp
    · simp [Fido2Client.change_pin_resp] at h
    · cases resp <;>
        simp_all [Fido2Client.change_pin_resp, Fido2Client.has_pin_token,
          Fido2Client.clear_pin_token]

/-- Closed instantiation of `pin_token_lifecycle` at the fresh client and the
three success responses. -/
theorem pin_token_lifecycle_witness :
    (Fido2Client.new.verify_pin_resp
        (.ok (.ClientPinToken [1, 2]))).2.has_pin_token = true ∧
    (Fido2Client.new.reset_resp (.ok .Reset)).2.has_pin_token = false ∧
    (Fido2Client.new.change_pin_resp (.ok .ClientPin)).2.has_pin_token = false := by
  obtain ⟨h1, h2, h3⟩ :=
    pin_token_lifecycle Fido2Client.new [1, 2]
      (.ok (.ClientPinToken [1, 2])) (.ok .Reset) (.ok .ClientPin)
  exact ⟨h1 rfl, h2 rfl, h3 rfl⟩

/-- The PIN token and its protocol version are both present or both
absent. -/
def PinInvariant (c : Fido2Client) : Prop :=
  c.pin_token.isSome = c.pin_protocol_version.isSome

/-- Engine states reachable from `new`/`with_timeout` by any sequence of the
public operations.  Each protocol operation is taken at its
response-handling step with an arbitrary `send_ctap_command` result, which
subsumes every behaviour of the full operation (whose state component is
definitionally the response step applied to the send result). -/
inductive Reachable : Fido2Client → Prop where
  | new_ : Reachable Fido2Client.new
  | with_timeout (t : Nat) : Reachable (Fido2Client.with_timeout t)
  | set_timeout (c : Fido2Client) (t : Nat) :
      Reachable c → Reachable (c.set_timeout t)
  | clear_pin_token (c : Fido2Client) :
      Reachable c → Reachable c.clear_pin_token
  | get_info (c : Fido2Client) (r : Except YKeyError CtapResponse) :
      Reachable c → Reachable (c.get_info_resp r).2
  | make_credential (c : Fido2Client) (r : Except YKeyError CtapResponse) :
      Reachable c → Reachable (c.make_credential_resp r).2
  | get_assertion (c : Fido2Client) (r : Except YKeyError CtapResponse) :
      Reachable c → Reachable (c.get_assertion_resp r).2
  | reset (c : Fido2Client) (r : Except YKeyError CtapResponse) :
      Reachable c → Reachable (c.reset_resp r).2
  | set_pin (c : Fido2Client) (r : Except YKeyError CtapResponse) :
      Reachable c → Reachable (c.set_pin_resp r).2
  | change_pin (c : Fido2Client) (r : Except YKeyError CtapResponse) :
      Reachable c → Reachable (c.change_pin_resp r).2
  | verify_pin (c : Fido2Client) (r : Except YKeyError CtapResponse) :
      Reachable c → Reachable (c.verify_pin_resp r).2
  | get_next_assertion (c : Fido2Client) (r : Except YKeyError CtapResponse) :
      Reachable c → Reachable (c.get_next_assertion_resp r).2
  | cancel (c : Fido2Client) (r : Except YKeyError CtapResponse) :
      Reachable c → Reachable (c.cancel_resp r).2

/-- `get_info` never changes the engine state. -/
lemma get_info_resp_state (c : Fido2Client)
    (r : Except YKeyError CtapResponse) : (c.get_info_resp r).2 = c := by
  rcases r with e | resp
  · rfl
  · cases resp <;> rfl

/-- `make_credential` never changes the engine state. -/
lemma make_credential_resp_state (c : Fido2Client)
    (r : Except YKeyError CtapResponse) : (c.make_credential_resp r).2 = c := by
  rcases r with e | resp
  · rfl
  · cases resp <;> rfl

/-- `get_assertion` never changes the engine state. -/
lemma get_assertion_resp_state (c : Fido2Client)
    (r : Except YKeyError CtapResponse) : (c.get_assertion_resp r).2 = c := by
  rcases r with e | resp
  · rfl
  · cases resp <;> rfl

/-- `set_pin` never changes the engine state. -/
lemma set_pin_resp_state (c : Fido2Client)
    (r : Except YKeyError CtapResponse) : (c.set_pin_resp r).2 = c := by
  rcases r with e | resp
  · rfl
  · cases resp <;> rfl

/-- `get_next_assertion` never changes the engine state. -/
lemma get_next_assertion_resp_state (c : Fido2Client)
    (r : Except YKeyError CtapResponse) :
    (c.get_next_assertion_resp r).2 = c := by
  rcases r with e | resp
  · rfl
  · cases resp <;> rfl

/-- `cancel` never changes the engine state. -/
lemma cancel_resp_state (c : Fido2Client)
    (r : Except YKeyError CtapResponse) : (c.cancel_resp r).2 = c := by
  rcases r with e | resp
  · rfl
  · cases resp <;> rfl

/-- `reset` either keeps the state or clears the PIN session. -/
lemma reset_resp_state (c : Fido2Client)
    (r : Except YKeyError CtapResponse) :
    (c.reset_resp r).2 = c ∨ (c.reset_resp r).2 = c.clear_pin_token := by
  rcases r with e | resp
  · exact Or.inl rfl
  · cases resp <;> first | exact Or.inl rfl | exact Or.inr rfl

/-- `change_pin` either keeps the state or clears the PIN session. -/
lemma change_pin_resp_state (c : Fido2Client)
    (r : Except YKeyError CtapResponse) :
    (c.change_pin_resp r).2 = c ∨ (c.change_pin_resp r).2 = c.clear_pin_token := by
  rcases r with e | resp
  · exact Or.inl rfl
  · cases resp <;> first | exact Or.inl rfl | exact Or.inr rfl

/-- `verify_pin` preserves the both-or-neither invariant. -/
lemma pinInvariant_verify_pin_resp (c : Fido2Client)
    (r : Except YKeyError CtapResponse) (h : PinInvariant c) :
    PinInvariant (c.verify_pin_resp r).2 := by
  rcases r with e | resp
  · exact h
  · cases resp <;> first | exact h | rfl

/-- C10.  In every state reachable from a freshly constructed client by any
sequence of public operations, `has_pin_token` is `true` exactly when
`pin_protocol_version` is `Some`. -/
theorem has_pin_token_iff_pin_protocol_version (c : Fido2Client)
    (h : Reachable c) :
    c.has_pin_token = true ↔ ∃ v, c.pin_protocol_version = some v := by
  have hinv : PinInvariant c := by
    induction h with
    | new_ => rfl
    | with_timeout t => rfl
    | set_timeout c t _ ih => exact ih
    | clear_pin_token c _ _ => rfl
    | get_info c r _ ih => rw [get_info_resp_state]; exact ih
    | make_credential c r _ ih => rw [make_credential_resp_state]; exact ih
    | get_assertion c r _ ih => rw [get_assertion_resp_state]; exact ih
    | reset c r _ ih =>
        rcases reset_resp_state c r with h2 | h2 <;> rw [h2]
        · exact ih
        · rfl
    | set_pin c r _ ih => rw [set_pin_resp_state]; exact ih
    | change_pin c r _ ih =>
        rcases change_pin_resp_state c r with h2 | h2 <;> rw [h2]
        · exact ih
        · rfl
    | verify_pin c r _ ih => exact pinInvariant_verify_pin_resp c r ih
    | get_next_assertion c r _ ih =>
        rw [get_next_assertion_resp_state]; exact ih
    | cancel c r _ ih => rw [cancel_resp_state]; exact ih
  unfold Fido2Client.has_pin_token
  rw [show c.pin_token.isSome = c.pin_protocol_version.isSome from hinv]
  exact Option.isSome_iff_exists

/-- Closed instantiation of `has_pin_token_iff_pin_protocol_version` at the
state reached by a fresh client after a successful PIN verification. -/
theorem has_pin_token_iff_pin_protocol_version_witness :
    ((Fido2Client.new.verify_pin_resp
        (.ok (.ClientPinToken [7]))).2.has_pin_token = true ↔
      ∃ v, (Fido2Client.new.verify_pin_resp
        (.ok (.ClientPinToken [7]))).2.pin_protocol_version = some v) :=
  has_pin_token_iff_pin_protocol_version _
    (Reachable.verify_pin Fido2Client.new (.ok (.ClientPinToken [7]))
      Reachable.new_)

end YKey

namespace YKey

/-! ## Claim theorems for the CTAP2 codec and pipeline -/

/-- A concrete `MakeCredentialParams` value for instantiations. -/
def sampleParams : MakeCredentialParams where
  client_data_hash := [0, 1, 2]
  rp := { id := "example.com", name := none, icon := none }
  user := { id := [1], name := "user", display_name := "User", icon := none }
  pub_key_cred_params := [{ cred_type := "public-key", alg := -7 }]
  exclude_list := none
  extensions := none
  options := { rk := none, uv := none, up := none }
  pin_uv_auth_param := none
  pin_uv_auth_protocol := none

/-- C2 (evaluation at the failing input).  `CtapResponse::decode` does not
take the originating command: on the success response `[0x00, 0x01]` it
produces the mock `GetInfo` regardless, so `make_credential` on that
response yields `UnexpectedResponse` while `get_info` on the very same bytes
succeeds; indeed no device behaviour can ever make `make_credential` return
an `AttestationObject`. -/
theorem make_credential_decode_ignores_command :
    ((Fido2Client.new.make_credential sampleParams
        (.ok [0x00, 0x01])).1 = .error .UnexpectedResponse) ∧
    ((Fido2Client.new.get_info (.ok [0x00, 0x01])).1 = .ok mockGetInfo) ∧
    (∀ (c : Fido2Client) (params : MakeCredentialParams) (raw : RawOutcome),
      ∃ e, (c.make_credential params raw).1 = .error e) := by
  refine ⟨rfl, rfl, ?_⟩
  intro c params raw
  rcases raw with _ | msg | bytes
  · exact ⟨_, rfl⟩
  · exact ⟨_, rfl⟩
  · rcases bytes with _ | ⟨b, rest⟩
    · exact ⟨_, rfl⟩
    · rcases b with _ | b
      · rcases rest with _ | ⟨x, xs⟩
        · exact ⟨_, rfl⟩
        · exact ⟨_, rfl⟩
      · exact ⟨_, rfl⟩

/-- C3 (counterexample).  The PIN `éé` has 2 characters — fewer than 4 — yet
`set_pin` does not return `InvalidParameters`: the validation compares
`pin.len()`, the UTF-8 byte length (here 4), so the command is encoded and
sent to the device and the call fails only later with
`UnexpectedResponse`. -/
theorem set_pin_char_length_cex :
    ("éé".length = 2) ∧
    (Fido2Client.new.set_pin "éé" (.ok [0])).2.2 = [[0x06]] ∧
    (Fido2Client.new.set_pin "éé" (.ok [0])).1 = .error .UnexpectedResponse := by
  refine ⟨by decide, rfl, rfl⟩

/-- C3 (amended).  For every PIN whose UTF-8 byte length (Rust
`String::len`) is below 4 or above 8, `set_pin` (for its `pin` argument) and
`change_pin` (for its `new_pin` argument) return `InvalidParameters` and
send nothing to the device, for every prior state and device behaviour. -/
theorem pin_byte_length_validation (c : Fido2Client) (pin old_pin : String)
    (raw : RawOutcome)
    (h : pin.utf8ByteSize < 4 ∨ pin.utf8ByteSize > 8) :
    c.set_pin pin raw =
      (.error (.InvalidParameters "PIN must be 4-8 characters"), c, []) ∧
    c.change_pin old_pin pin raw =
      (.error (.InvalidParameters "PIN must be 4-8 characters"), c, []) := by
  constructor
  · unfold Fido2Client.set_pin
    rw [if_pos h]
  · unfold Fido2Client.change_pin
    rw [if_pos h]

/-- Closed instantiation of `pin_byte_length_validation` at the 3-byte PIN
`123`. -/
theorem pin_byte_length_validation_witness :
    Fido2Client.new.set_pin "123" (.ok [0]) =
      (.error (.InvalidParameters "PIN must be 4-8 characters"),
        Fido2Client.new, []) ∧
    Fido2Client.new.change_pin "1234" "123" (.ok [0]) =
      (.error (.InvalidParameters "PIN must be 4-8 characters"),
        Fido2Client.new, []) :=
  pin_byte_length_validation Fido2Client.new "123" "1234" (.ok [0])
    (Or.inl (by decide))

/-- C4 (evaluation at the failing input).  `verify_pin` performs no PIN
length validation: with the 2-character PIN `12` it still encodes and sends
the ClientPin command byte `0x06` to the device; in fact every `verify_pin`
call sends exactly that packet, whatever the PIN. -/
theorem verify_pin_no_length_check :
    (Fido2Client.new.verify_pin "12" (.ok [0]) =
      (.error .UnexpectedResponse, Fido2Client.new, [[0x06]])) ∧
    (∀ (c : Fido2Client) (pin : String) (raw : RawOutcome),
      (c.verify_pin pin raw).2.2 = [[0x06]]) :=
  ⟨rfl, fun _ _ _ => rfl⟩

/-- C9 (evaluation).  The command bytes are as specified — GetInfo `0x04`,
MakeCredential `0x01`, GetAssertion `0x02`, ClientPIN `0x06`, Reset `0x07`,
GetNextAssertion `0x08`, Cancel `0x3F 0x00 0x00 0x00` — but the
parameterized commands encode to the bare command byte: no CBOR payload is
appended. -/
theorem encode_wire_bytes (mp : MakeCredentialParams)
    (gp : GetAssertionParams) (cp : ClientPinCommand) :
    CtapCommand.GetInfo.encode = .ok [0x04] ∧
    (CtapCommand.MakeCredential mp).encode = .ok [0x01] ∧
    (CtapCommand.GetAssertion gp).encode = .ok [0x02] ∧
    (CtapCommand.ClientPin cp).encode = .ok [0x06] ∧
    CtapCommand.Reset.encode = .ok [0x07] ∧
    CtapCommand.GetNextAssertion.encode = .ok [0x08] ∧
    CtapCommand.Cancel.encode = .ok [0x3F, 0x00, 0x00, 0x00] :=
  ⟨rfl, rfl, rfl, rfl, rfl, rfl, rfl⟩

end YKey

namespace YKey

/-- `is_retryable` holds exactly on the `DeviceBusy`, `Timeout` and
`CommunicationError` variants and on authenticator codes `0x06` (channel
busy) and `0x16` (processing). -/
lemma is_retryable_iff_forms (e : YKeyError) :
    e.is_retryable = true ↔
      ((∃ s, e = .DeviceBusy s) ∨ (∃ n, e = .Timeout n) ∨
       (∃ s, e = .CommunicationError s) ∨
       (∃ msg, e = .CtapError 0x06 msg) ∨
       (∃ msg, e = .CtapError 0x16 msg)) := by
  cases e <;> simp [YKeyError.is_retryable]

/-- C7.  `ctap_error` always carries the exact status code; each defined code
carries the fixed human-readable message of the table; unrecognized codes
(here `0x00`, `0x07`, `0xFF`) carry the raw byte formatted into the message;
`is_retryable` is true exactly for `DeviceBusy`/`Timeout`/
`CommunicationError` and codes `0x06`/`0x16`; the PIN-required code `0x2A`
is classified `is_pin_required` and the PIN-blocked code `0x26` is
classified `is_device_locked`. -/
theorem ctap_error_table :
    (∀ code : Nat, ∃ m, YKeyError.ctap_error code = .CtapError code m) ∧
    (YKeyError.ctap_error 0x01 = .CtapError 0x01 "Invalid command") ∧
    (YKeyError.ctap_error 0x02 = .CtapError 0x02 "Invalid parameter") ∧
    (YKeyError.ctap_error 0x03 = .CtapError 0x03 "Invalid length") ∧
    (YKeyError.ctap_error 0x04 = .CtapError 0x04 "Invalid sequence") ∧
    (YKeyError.ctap_error 0x05 = .CtapError 0x05 "Message timeout") ∧
    (YKeyError.ctap_error 0x06 = .CtapError 0x06 "Channel busy") ∧
    (YKeyError.ctap_error 0x0A = .CtapError 0x0A "Lock required") ∧
    (YKeyError.ctap_error 0x0B = .CtapError 0x0B "Invalid channel") ∧
    (YKeyError.ctap_error 0x10 = .CtapError 0x10 "CBOR unexpected type") ∧
    (YKeyError.ctap_error 0x11 = .CtapError 0x11 "Invalid CBOR") ∧
    (YKeyError.ctap_error 0x12 = .CtapError 0x12 "Missing parameter") ∧
    (YKeyError.ctap_error 0x13 = .CtapError 0x13 "Limit exceeded") ∧
    (YKeyError.ctap_error 0x14 = .CtapError 0x14 "Unsupported extension") ∧
    (YKeyError.ctap_error 0x15 = .CtapError 0x15 "Credential excluded") ∧
    (YKeyError.ctap_error 0x16 = .CtapError 0x16 "Processing") ∧
    (YKeyError.ctap_error 0x17 = .CtapError 0x17 "Invalid credential") ∧
    (YKeyError.ctap_error 0x18 = .CtapError 0x18 "User action pending") ∧
    (YKeyError.ctap_error 0x19 = .CtapError 0x19 "Operation pending") ∧
    (YKeyError.ctap_error 0x1A = .CtapError 0x1A "No operations") ∧
    (YKeyError.ctap_error 0x1B = .CtapError 0x1B "Unsupported algorithm") ∧
    (YKeyError.ctap_error 0x1C = .CtapError 0x1C "Operation denied") ∧
    (YKeyError.ctap_error 0x1D = .CtapError 0x1D "Key store full") ∧
    (YKeyError.ctap_error 0x1E = .CtapError 0x1E "No operation pending") ∧
    (YKeyError.ctap_error 0x1F = .CtapError 0x1F "Unsupported option") ∧
    (YKeyError.ctap_error 0x20 = .CtapError 0x20 "Invalid option") ∧
    (YKeyError.ctap_error 0x21 = .CtapError 0x21 "Keep alive cancel") ∧
    (YKeyError.ctap_error 0x22 = .CtapError 0x22 "No credentials") ∧
    (YKeyError.ctap_error 0x23 = .CtapError 0x23 "User action timeout") ∧
    (YKeyError.ctap_error 0x24 = .CtapError 0x24 "Not allowed") ∧
    (YKeyError.ctap_error 0x25 = .CtapError 0x25 "PIN invalid") ∧
    (YKeyError.ctap_error 0x26 = .CtapError 0x26 "PIN blocked") ∧
    (YKeyError.ctap_error 0x27 = .CtapError 0x27 "PIN auth invalid") ∧
    (YKeyError.ctap_error 0x28 = .CtapError 0x28 "PIN auth blocked") ∧
    (YKeyError.ctap_error 0x29 = .CtapError 0x29 "PIN not set") ∧
    (YKeyError.ctap_error 0x2A = .CtapError 0x2A "PIN required") ∧
    (YKeyError.ctap_error 0x2B = .CtapError 0x2B "PIN policy violation") ∧
    (YKeyError.ctap_error 0x2C = .CtapError 0x2C "PIN token expired") ∧
    (YKeyError.ctap_error 0x2D = .CtapError 0x2D "Request too large") ∧
    (YKeyError.ctap_error 0x2E = .CtapError 0x2E "Action timeout") ∧
    (YKeyError.ctap_error 0x2F = .CtapError 0x2F "Up required") ∧
    (YKeyError.ctap_error 0x30 = .CtapError 0x30 "UV blocked") ∧
    (YKeyError.ctap_error 0x31 = .CtapError 0x31 "Integrity failure") ∧
    (YKeyError.ctap_error 0x32 = .CtapError 0x32 "Invalid subcommand") ∧
    (YKeyError.ctap_error 0x33 = .CtapError 0x33 "UV invalid") ∧
    (YKeyError.ctap_error 0x34 = .CtapError 0x34 "Unauthorized permission") ∧
    (YKeyError.ctap_error 0x00 = .CtapError 0x00 "Unknown error code: 0x00") ∧
    (YKeyError.ctap_error 0x07 = .CtapError 0x07 "Unknown error code: 0x07") ∧
    (YKeyError.ctap_error 0xFF = .CtapError 0xFF "Unknown error code: 0xff") ∧
    (∀ e : YKeyError, e.is_retryable = true ↔
      ((∃ s, e = .DeviceBusy s) ∨ (∃ n, e = .Timeout n) ∨
       (∃ s, e = .CommunicationError s) ∨
       (∃ msg, e = .CtapError 0x06 msg) ∨
       (∃ msg, e = .CtapError 0x16 msg))) ∧
    ((YKeyError.ctap_error 0x2A).is_pin_required = true) ∧
    ((YKeyError.ctap_error 0x26).is_device_locked = true) :=
  ⟨fun _code => ⟨_, rfl⟩, rfl, rfl, rfl, rfl, rfl, rfl, rfl, rfl, rfl, rfl, rfl, rfl, rfl, rfl, rfl, rfl, rfl, rfl, rfl, rfl, rfl, rfl, rfl, rfl, rfl, rfl, rfl, rfl, rfl, rfl, rfl, rfl, rfl, rfl, rfl, rfl, rfl, rfl, rfl, rfl, rfl, rfl, rfl, rfl, rfl, rfl, rfl, rfl, is_retryable_iff_forms, rfl, rfl⟩

/-- Closed instantiation of `ctap_error_table`: the constructed error for the
PIN-required status code `0x2A` carries that exact code. -/
theorem ctap_error_table_witness :
    ∃ m, YKeyError.ctap_error 0x2A = .CtapError 0x2A m :=
  ctap_error_table.1 0x2A

end YKey
